import Mathlib

/-!
Verification of the campsite-tracker scan execution engine.

The definitions below are a shallow embedding of the Rust source in
`backend/crates/campground-scan/src/` (executor.rs, notification_service.rs,
rec_gov_client.rs).  Calendar dates (chrono NaiveDate) are modelled by the
structure NDate with lexicographic comparison; instants (chrono
DateTime<Utc>) are modelled by Int (seconds); f64 prices are carried as Rat
and the f64 FromStr parser is an explicit parameter, since no claim depends
on floating-point arithmetic.  Database tables are modelled as lookup
functions / lists; trait-object transports and string formatting are
explicit functional parameters, mirroring how the source treats them as
opaque.
-/

namespace CampsiteTracker

/-- Calendar date, modelling chrono NaiveDate (year, month, day). -/
structure NDate where
  year : Int
  month : Int
  day : Int
deriving DecidableEq, Repr

/-- Lexicographic date comparison, date a ≤ date b. -/
def NDate.ble (a b : NDate) : Bool :=
  a.year < b.year ||
    (a.year == b.year && (a.month < b.month || (a.month == b.month && a.day ≤ b.day)))

/-- Lexicographic date comparison, date a < date b. -/
def NDate.blt (a b : NDate) : Bool :=
  a.year < b.year ||
    (a.year == b.year && (a.month < b.month || (a.month == b.month && a.day < b.day)))

/-- executor.rs SiteAvailability: availability of one campsite on one date. -/
structure SiteAvailability where
  site_id : String
  site_name : String
  available : Bool
  date : NDate
  price : Option Rat
deriving DecidableEq, Repr

/-- executor.rs CampgroundAvailability: one fetched snapshot. -/
structure CampgroundAvailability where
  campground_id : String
  available_sites : List SiteAvailability
  total_sites : Nat
  checked_at : Int
deriving DecidableEq, Repr

/-- executor.rs PollingJob: one row of the polling_jobs table. -/
structure PollingJob where
  campground_id : String
  active_scan_count : Int
  last_polled : Option Int
  next_poll_at : Int
  poll_frequency_minutes : Int
  consecutive_errors : Int
  is_being_polled : Bool
  priority : Int
deriving DecidableEq, Repr

/-- executor.rs ScanExecutorConfig (durations in seconds). -/
structure ScanExecutorConfig where
  min_api_interval : Int
  max_calls_per_hour : Int
  poll_check_interval : Int
  default_poll_frequency : Int
  max_consecutive_errors : Int
  error_backoff_duration : Int
deriving DecidableEq, Repr

/-- Default configuration from ScanExecutorConfig::default(). -/
def ScanExecutorConfig.defaults : ScanExecutorConfig :=
  { min_api_interval := 5
    max_calls_per_hour := 1000
    poll_check_interval := 30
    default_poll_frequency := 15 * 60
    max_consecutive_errors := 5
    error_backoff_duration := 60 * 60 }

/-- scan_types.rs UserScan (fields the executor reads). -/
structure UserScan where
  id : Nat
  user_id : Nat
  campground_id : String
  check_in_date : NDate
  check_out_date : NDate
  nights : Int
  status : String
  notification_sent : Bool
deriving DecidableEq, Repr

/-- notification_service.rs NotificationRecord (row of the notifications table). -/
structure NotificationRecord where
  notification_type : String
  recipient : String
  subject : Option String
  message : String
  status : String
  external_id : Option String
deriving DecidableEq, Repr

/-- notification_service.rs NotificationPreferences. -/
structure NotificationPreferences where
  email : Bool
  sms : Bool
deriving DecidableEq, Repr

/-- notification_service.rs UserDetails: the user projection the notifier reads. -/
structure UserDetails where
  email : String
  name : String
  phone : Option String
  email_verified : Bool
  phone_verified : Bool
  preferences : NotificationPreferences
deriving DecidableEq, Repr

/-!  ## Upstream client (rec_gov_client.rs)  -/

/-- Rust str::starts_with("$") — the pattern is the single character '$',
so this is a first-character test. -/
def starts_with_dollar (s : String) : Bool :=
  s.data.head? == some '$'

/-- rec_gov_client.rs RecGovClient::parse_availability_status.
The f64 parser applied to the text after the dollar sign is the parameter
pf (Rust: s[1..].parse::<f64>().ok()). -/
def parse_availability_status (pf : String → Option Rat) (status : String) : Bool × Option Rat :=
  if status = "Available" then (true, none)
  else if status = "Reserved" then (false, none)
  else if status = "Not Available" then (false, none)
  else if status = "Not Reservable" then (false, none)
  else if status = "Walk-up" then (false, none)
  else if status = "A" then (true, none)
  else if status = "R" then (false, none)
  else if status = "X" then (false, none)
  else if status = "W" then (false, none)
  else if status = "N" then (false, none)
  else if starts_with_dollar status then (true, pf (status.drop 1))
  else (false, none)

/-- The ten literal statuses of the decode table in parse_availability_status. -/
def knownStatuses : List String :=
  ["Available", "Reserved", "Not Available", "Not Reservable", "Walk-up",
   "A", "R", "X", "W", "N"]

/-- rec_gov_client.rs CampsiteAvailabilityData: per-campsite payload of the
internal monthly endpoint.  Availability keys are the dates parsed from the
ISO-8601 date-time strings (the string-to-date parse is the JSON boundary). -/
structure CampsiteAvailabilityData where
  availabilities : List (NDate × String)
  campsite_id : Option String
  campsite_type : Option String
  campsite_loop : Option String

/-- rec_gov_client.rs RecGovClient::parse_availability_data: keep the dates
inside [start_date, end_date], decode each status, default the site name to
the campsite id. -/
def parse_availability_data (pf : String → Option Rat) (campsite_id : String)
    (campsite_name : Option String) (availabilities : List (NDate × String))
    (start_date end_date : NDate) : List SiteAvailability :=
  availabilities.filterMap fun p =>
    if p.1.blt start_date || end_date.blt p.1 then none
    else
      let pr := parse_availability_status pf p.2
      some { site_id := campsite_id
             site_name := campsite_name.getD campsite_id
             available := pr.1
             date := p.1
             price := pr.2 }

/-- First day of the month containing d (NaiveDate::from_ymd_opt(year, month, 1)). -/
def month_start (d : NDate) : NDate := ⟨d.year, d.month, 1⟩

/-- rec_gov_client.rs RecGovClient::get_internal_campground_availability.
The remote monthly endpoint is the parameter upstream, mapping the anchor
date sent in start_date_param to the decoded response body.  The source
issues exactly one request, anchored at the first day of the month of
start_date, and converts every campsite's availabilities filtered to
[start_date, end_date]. -/
def get_internal_campground_availability
    (upstream : NDate → List (String × CampsiteAvailabilityData))
    (pf : String → Option Rat) (facility_id : String)
    (start_date end_date : NDate) (now : Int) : CampgroundAvailability :=
  let response := upstream (month_start start_date)
  let available_sites := response.foldr
    (fun p acc =>
      parse_availability_data pf p.1 none p.2.availabilities start_date end_date ++ acc)
    []
  { campground_id := facility_id
    available_sites := available_sites
    total_sites := response.length
    checked_at := now }

/-- Modelled from the spec: the monthly availability endpoint of the
upstream reservation service (not part of this repository) accepts a
first-of-month anchor and serves availability only for the month containing
that anchor. -/
def monthly_endpoint (upstream : NDate → List (String × CampsiteAvailabilityData)) : Prop :=
  ∀ anchor, ∀ p ∈ upstream anchor, ∀ q ∈ p.2.availabilities,
    q.1.year = anchor.year ∧ q.1.month = anchor.month

/-!  ## Diff engine (executor.rs find_new_availability)  -/

/-- The is_new test of executor.rs find_new_availability for one current site:
new iff the previous map has no bucket for the date, or the bucket has no
entry with the same site_id that was available. -/
def is_new_site (previous : NDate → Option (List SiteAvailability))
    (site : SiteAvailability) : Bool :=
  match previous site.date with
  | some prev_sites =>
      !(prev_sites.any fun prev_site =>
          prev_site.site_id == site.site_id && prev_site.available)
  | none => true

/-- Loop body of executor.rs find_new_availability: walk the current sites,
skip unavailable ones, push the new ones. -/
def find_new_availability_go (previous : NDate → Option (List SiteAvailability)) :
    List SiteAvailability → List SiteAvailability
  | [] => []
  | site :: rest =>
    if !site.available then find_new_availability_go previous rest
    else if is_new_site previous site then
      site :: find_new_availability_go previous rest
    else find_new_availability_go previous rest

/-- executor.rs ScanExecutor::find_new_availability. -/
def find_new_availability (previous : NDate → Option (List SiteAvailability))
    (current : CampgroundAvailability) : List SiteAvailability :=
  find_new_availability_go previous current.available_sites

/-- Modelled from the spec: the diff algorithm of section 4.5, written as a
filter over current.available_sites. -/
def diffSpec (previous : NDate → Option (List SiteAvailability))
    (current : CampgroundAvailability) : List SiteAvailability :=
  current.available_sites.filter fun s =>
    s.available &&
      match previous s.date with
      | none => true
      | some ps => !(ps.any fun p => p.site_id == s.site_id && p.available)

/-!  ## Availability store (executor.rs cache read / write)  -/

/-- Row of the campground_availability table. -/
structure AvailRow where
  available_sites : Option Int
  total_sites : Option Int
  availability_data : Option (List SiteAvailability)
  last_checked : Int
  check_status : String
  error_message : Option String
deriving DecidableEq, Repr

/-- The campground_availability table, keyed by (campground_id, date). -/
def AvailCache : Type := String → NDate → Option AvailRow

/-- executor.rs ScanExecutor::update_availability_cache: group the snapshot's
sites by date and upsert one success row per date (counts, data, last
checked; error_message cleared). -/
def update_availability_cache (cache : AvailCache) (availability : CampgroundAvailability) :
    AvailCache :=
  fun cg d =>
    let bucket := availability.available_sites.filter fun s => s.date == d
    if cg == availability.campground_id && !bucket.isEmpty then
      some { available_sites := some ((bucket.filter fun s => s.available).length : Int)
             total_sites := some (bucket.length : Int)
             availability_data := some bucket
             last_checked := availability.checked_at
             check_status := "success"
             error_message := none }
    else cache cg d

/-- executor.rs ScanExecutor::get_cached_availability: success rows with
non-null data in [start_date, end_date], as a date-indexed map. -/
def get_cached_availability (cache : AvailCache) (campground_id : String)
    (start_date end_date : NDate) : NDate → Option (List SiteAvailability) :=
  fun d =>
    if start_date.ble d && d.ble end_date then
      match cache campground_id d with
      | some row => if row.check_status == "success" then row.availability_data else none
      | none => none
    else none

/-!  ## Scheduler (executor.rs get_jobs_needing_poll / process_polling_jobs)  -/

/-- WHERE clause of the candidate query in get_jobs_needing_poll. -/
def job_needs_poll (max_consecutive_errors : Int) (now : Int) (job : PollingJob) : Bool :=
  job.active_scan_count > 0 && job.next_poll_at ≤ now &&
    !job.is_being_polled && job.consecutive_errors < max_consecutive_errors

/-- ORDER BY priority DESC, next_poll_at ASC of the candidate query. -/
def jobOrder (a b : PollingJob) : Prop :=
  b.priority < a.priority ∨ (a.priority = b.priority ∧ a.next_poll_at ≤ b.next_poll_at)

/-- Ordering used by the in-memory re-sort in process_polling_jobs
(sort_by on priority descending only). -/
def priorityOrder (a b : PollingJob) : Prop :=
  b.priority ≤ a.priority

instance : DecidableRel jobOrder := fun a b =>
  inferInstanceAs (Decidable (b.priority < a.priority ∨
    (a.priority = b.priority ∧ a.next_poll_at ≤ b.next_poll_at)))

instance : DecidableRel priorityOrder := fun a b =>
  inferInstanceAs (Decidable (b.priority ≤ a.priority))

instance : IsTotal PollingJob jobOrder :=
  ⟨by intro a b; unfold jobOrder; omega⟩

instance : IsTrans PollingJob jobOrder :=
  ⟨by intro a b c; unfold jobOrder; omega⟩

instance : IsTotal PollingJob priorityOrder :=
  ⟨by intro a b; unfold priorityOrder; omega⟩

instance : IsTrans PollingJob priorityOrder :=
  ⟨by intro a b c; unfold priorityOrder; omega⟩

/-- executor.rs ScanExecutor::get_jobs_needing_poll: filter the polling_jobs
rows by the WHERE clause, order by priority DESC then next_poll_at ASC,
LIMIT 50.  The SQL sort is modelled by insertion sort on jobOrder. -/
def get_jobs_needing_poll (rows : List PollingJob) (cfg : ScanExecutorConfig)
    (now : Int) : List PollingJob :=
  (List.insertionSort jobOrder
    (rows.filter (job_needs_poll cfg.max_consecutive_errors now))).take 50

/-- In-memory re-sort applied in process_polling_jobs before admission:
Rust Vec::sort_by with the comparator b.priority.cmp(a.priority).  Vec::sort_by
is a stable sort and stable sorts for a total preorder agree, so it is
modelled by insertion sort on priorityOrder. -/
def process_polling_jobs_order (jobs : List PollingJob) : List PollingJob :=
  List.insertionSort priorityOrder jobs

/-!  ## Job bookkeeping (executor.rs update_job_success / update_job_error)  -/

/-- executor.rs ScanExecutor::update_job_success: zero the error counter,
schedule the next poll one poll_frequency_minutes from now, release the
in-flight flag. -/
def update_job_success (now : Int) (job : PollingJob) : PollingJob :=
  { job with
    last_polled := some now
    next_poll_at := now + 60 * job.poll_frequency_minutes
    consecutive_errors := 0
    is_being_polled := false }

/-- Worker-visible state touched by the per-job error path: the job row, the
campground_availability table and the notifications log. -/
structure WorkerState where
  job : PollingJob
  cache : AvailCache
  notifications : List NotificationRecord

/-- executor.rs ScanExecutor::update_job_error: bump consecutive_errors,
push next_poll_at by the backoff duration once the threshold is reached and
by poll_frequency_minutes otherwise, release the in-flight flag, and upsert
an error row for today into campground_availability.  The notifications log
is untouched: the failure path performs exactly these two writes. -/
def update_job_error (cfg : ScanExecutorConfig) (now : Int) (today : NDate)
    (error_message : String) (st : WorkerState) : WorkerState :=
  let new_error_count := st.job.consecutive_errors + 1
  let next_poll : Int :=
    if new_error_count ≥ cfg.max_consecutive_errors then
      now + cfg.error_backoff_duration
    else
      now + 60 * st.job.poll_frequency_minutes
  { job := { st.job with
      consecutive_errors := new_error_count
      next_poll_at := next_poll
      is_being_polled := false }
    cache := fun cg d =>
      if cg == st.job.campground_id && d == today then
        some (match st.cache cg d with
          | some row =>
            { row with
              check_status := "error"
              error_message := some error_message
              last_checked := now }
          | none =>
            { available_sites := none
              total_sites := none
              availability_data := none
              last_checked := now
              check_status := "error"
              error_message := some error_message })
      else st.cache cg d
    notifications := st.notifications }

/-!  ## Notifier (notification_service.rs)  -/

/-- The notifier's collaborators, treated as opaque by the source: the two
trait-object transports (present iff the service is configured; each send
returns an external id or an error message) and the two content formatters
create_notification_content / create_sms_message. -/
structure NotifierCtx where
  email_service : Option (String → String → String → Except String String)
  sms_service : Option (String → String → Except String String)
  content : CampgroundAvailability → String × String
  sms_content : CampgroundAvailability → String

/-- notification_service.rs NotificationServiceImpl::send_availability_notification:
email first (guard: preference, verified, service configured), recording a
sent or failed row and returning the transport error on failure; then SMS
(guard: preference, verified, phone present, service configured) likewise.
Returns the rows written to the notifications table and the overall result. -/
def send_availability_notification (ctx : NotifierCtx) (user : UserDetails)
    (availability : CampgroundAvailability) :
    List NotificationRecord × Except String Unit :=
  let sm := ctx.content availability
  let subject := sm.1
  let message := sm.2
  let emailStep : List NotificationRecord × Except String Unit :=
    if user.preferences.email && user.email_verified && ctx.email_service.isSome then
      match ctx.email_service with
      | some svc =>
        match svc user.email subject message with
        | Except.ok external_id =>
            ([{ notification_type := "email", recipient := user.email
                subject := some subject, message := message
                status := "sent", external_id := some external_id }],
             Except.ok ())
        | Except.error e =>
            ([{ notification_type := "email", recipient := user.email
                subject := some subject, message := message
                status := "failed", external_id := none }],
             Except.error e)
      | none => ([], Except.ok ())
    else ([], Except.ok ())
  match emailStep with
  | (recs, Except.error e) => (recs, Except.error e)
  | (recs, Except.ok _) =>
    if user.preferences.sms && user.phone_verified &&
        user.phone.isSome && ctx.sms_service.isSome then
      match user.phone, ctx.sms_service with
      | some phone, some svc =>
        let sms_message := ctx.sms_content availability
        match svc phone sms_message with
        | Except.ok external_id =>
            (recs ++ [{ notification_type := "sms", recipient := phone
                        subject := none, message := sms_message
                        status := "sent", external_id := some external_id }],
             Except.ok ())
        | Except.error e =>
            (recs ++ [{ notification_type := "sms", recipient := phone
                        subject := none, message := sms_message
                        status := "failed", external_id := none }],
             Except.error e)
      | _, _ => (recs, Except.ok ())
    else (recs, Except.ok ())

/-!  ## Executor notification fan-out (executor.rs send_notifications_for_new_availability)  -/

/-- The half-open window test of executor.rs line 562:
check_in_date ≤ site.date < check_out_date. -/
def site_in_scan_window (scan : UserScan) (site : SiteAvailability) : Bool :=
  scan.check_in_date.ble site.date && site.date.blt scan.check_out_date

/-- The per-scan availability payload built in
send_notifications_for_new_availability (total_sites is the count of the
relevant sites). -/
def scan_availability (scan : UserScan) (now : Int)
    (relevant : List SiteAvailability) : CampgroundAvailability :=
  { campground_id := scan.campground_id
    available_sites := relevant
    total_sites := relevant.length
    checked_at := now }

/-- Per-scan body of send_notifications_for_new_availability: filter the new
sites to the scan's half-open window, skip when empty or when the latch is
already set; otherwise call the notification service (sendFn) and set the
notification_sent latch only when it returns Ok. -/
def notify_scan_step
    (sendFn : UserScan → CampgroundAvailability → List NotificationRecord × Except String Unit)
    (now : Int) (new_sites : List SiteAvailability) (scan : UserScan) :
    List NotificationRecord × UserScan :=
  let relevant := new_sites.filter (site_in_scan_window scan)
  if relevant.isEmpty then ([], scan)
  else if scan.notification_sent then ([], scan)
  else
    let res := sendFn scan (scan_availability scan now relevant)
    match res.2 with
    | Except.ok _ => (res.1, { scan with notification_sent := true })
    | Except.error _ => (res.1, scan)

/-- executor.rs ScanExecutor::send_notifications_for_new_availability: run
notify_scan_step over every scan, collecting the notification rows written
and the scans' updated latches. -/
def send_notifications_for_new_availability
    (sendFn : UserScan → CampgroundAvailability → List NotificationRecord × Except String Unit)
    (now : Int) (scans : List UserScan) (new_sites : List SiteAvailability) :
    List NotificationRecord × List UserScan :=
  match scans with
  | [] => ([], [])
  | scan :: rest =>
    let hd := notify_scan_step sendFn now new_sites scan
    let tl := send_notifications_for_new_availability sendFn now rest new_sites
    (hd.1 ++ tl.1, hd.2 :: tl.2)

/-- Steps 4-7 of executor.rs ScanExecutor::poll_campground, after the fetch:
read the previous snapshot from the cache, write the new snapshot, diff, and
fan out notifications only when the diff is non-empty. -/
def poll_campground_step
    (sendFn : UserScan → CampgroundAvailability → List NotificationRecord × Except String Unit)
    (now : Int) (scans : List UserScan) (cache : AvailCache)
    (start_date end_date : NDate) (new_availability : CampgroundAvailability) :
    AvailCache × List NotificationRecord × List UserScan :=
  let previous :=
    get_cached_availability cache new_availability.campground_id start_date end_date
  let cache2 := update_availability_cache cache new_availability
  let new_sites := find_new_availability previous new_availability
  if new_sites.isEmpty then (cache2, [], scans)
  else
    let res := send_notifications_for_new_availability sendFn now scans new_sites
    (cache2, res.1, res.2)

/-- Fixture for the month-boundary analysis: an upstream service holding
availability for campsite S1 on 2025-06-30 (served at the June anchor) and
on 2025-07-01 (served at the July anchor), month by month as the monthly
endpoint does. -/
def upstream_ex : NDate → List (String × CampsiteAvailabilityData) :=
  fun anchor =>
    if anchor = (⟨2025, 6, 1⟩ : NDate) then
      [("S1", { availabilities := [(⟨2025, 6, 30⟩, "Available")]
                campsite_id := some "S1"
                campsite_type := none
                campsite_loop := none })]
    else if anchor = (⟨2025, 7, 1⟩ : NDate) then
      [("S1", { availabilities := [(⟨2025, 7, 1⟩, "Available")]
                campsite_id := some "S1"
                campsite_type := none
                campsite_loop := none })]
    else []

/-!  ## Helper lemmas  -/

/-- The diff loop is the filter keeping available sites that are new. -/
lemma find_go_eq_filter (previous : NDate → Option (List SiteAvailability))
    (l : List SiteAvailability) :
    find_new_availability_go previous l =
      l.filter (fun s => s.available && is_new_site previous s) := by
  induction l with
  | nil => rfl
  | cons s rest ih =>
    by_cases h : s.available = true
    · by_cases h2 : is_new_site previous s = true
      · simp [find_new_availability_go, h, h2, List.filter_cons, ih]
      · simp [find_new_availability_go, h, h2, List.filter_cons, ih]
    · have hv : s.available = false := by
        cases hv : s.available
        · rfl
        · exact absurd hv h
      simp [find_new_availability_go, hv, List.filter_cons, ih]

/-- The diff loop returns nothing when every available site fails the
is_new test. -/
lemma find_go_nil (previous : NDate → Option (List SiteAvailability))
    (l : List SiteAvailability)
    (h : ∀ s ∈ l, s.available = true → is_new_site previous s = false) :
    find_new_availability_go previous l = [] := by
  rw [find_go_eq_filter]
  rw [List.filter_eq_nil_iff]
  intro s hs
  by_cases hv : s.available = true
  · simp [hv, h s hs hv]
  · simp [Bool.not_eq_true] at hv
    simp [hv]

/-!  ## Claim theorems  -/

/-- C2: the diff returns exactly the currently-available sites that are new
with respect to the previous map (no bucket for the date, or no available
entry with the same site id in the bucket), never returns a site with
available = false, and preserves the order of current.available_sites. -/
theorem c2_diff_characterization
    (previous : NDate → Option (List SiteAvailability))
    (current : CampgroundAvailability) :
    find_new_availability previous current = diffSpec previous current ∧
    (find_new_availability previous current).Sublist current.available_sites ∧
    ∀ s ∈ find_new_availability previous current, s.available = true := by
  have h := find_go_eq_filter previous current.available_sites
  refine ⟨?_, ?_, ?_⟩
  · rw [find_new_availability, h]
    simp only [diffSpec]
    apply List.filter_congr
    intro x _
    cases hpd : previous x.date <;> simp [is_new_site, hpd]
  · rw [find_new_availability, h]; exact List.filter_sublist _
  · intro s hs
    rw [find_new_availability, h] at hs
    have hpred := List.of_mem_filter hs
    simp only [Bool.and_eq_true] at hpred
    exact hpred.1

/-- C5: the status decoder is total and matches the decode table:
"Available" and "A" are available with no price; the reserved / not
available / not reservable / walk-up strings and their legacy letters are
unavailable with no price; a string starting with a dollar sign is available
with the parsed remainder as the price; everything else is unavailable with
no price. -/
theorem c5_status_decode_total (pf : String → Option Rat) :
    parse_availability_status pf "Available" = (true, none) ∧
    parse_availability_status pf "A" = (true, none) ∧
    (∀ s ∈ ["Reserved", "Not Available", "Not Reservable", "Walk-up",
            "R", "X", "W", "N"],
      parse_availability_status pf s = (false, none)) ∧
    (∀ s : String, starts_with_dollar s = true →
      parse_availability_status pf s = (true, pf (s.drop 1))) ∧
    (∀ s : String, s ∉ knownStatuses → starts_with_dollar s = false →
      parse_availability_status pf s = (false, none)) := by
  refine ⟨rfl, rfl, ?_, ?_, ?_⟩
  · intro s hs
    fin_cases hs <;> rfl
  · intro s h
    have h1 : s ≠ "Available" := by rintro rfl; exact absurd h (by decide)
    have h2 : s ≠ "Reserved" := by rintro rfl; exact absurd h (by decide)
    have h3 : s ≠ "Not Available" := by rintro rfl; exact absurd h (by decide)
    have h4 : s ≠ "Not Reservable" := by rintro rfl; exact absurd h (by decide)
    have h5 : s ≠ "Walk-up" := by rintro rfl; exact absurd h (by decide)
    have h6 : s ≠ "A" := by rintro rfl; exact absurd h (by decide)
    have h7 : s ≠ "R" := by rintro rfl; exact absurd h (by decide)
    have h8 : s ≠ "X" := by rintro rfl; exact absurd h (by decide)
    have h9 : s ≠ "W" := by rintro rfl; exact absurd h (by decide)
    have h10 : s ≠ "N" := by rintro rfl; exact absurd h (by decide)
    simp [parse_availability_status, h1, h2, h3, h4, h5, h6, h7, h8, h9, h10, h]
  · intro s hmem hd
    simp only [knownStatuses, List.mem_cons, List.not_mem_nil, or_false,
      not_or] at hmem
    obtain ⟨h1, h2, h3, h4, h5, h6, h7, h8, h9, h10⟩ := hmem
    simp [parse_availability_status, h1, h2, h3, h4, h5, h6, h7, h8, h9, h10, hd]

/-- C5 witness: the decoder at the concrete inputs "Walk-up", "$20" (with a
parser returning no price) and "Closed". -/
theorem c5_status_decode_total_witness :
    parse_availability_status (fun _ => none) "Walk-up" = (false, none) ∧
    parse_availability_status (fun _ => none) "$20" = (true, (fun _ : String => none) ("$20".drop 1)) ∧
    parse_availability_status (fun _ => none) "Closed" = (false, none) :=
  ⟨(c5_status_decode_total (fun _ => none)).2.2.1 "Walk-up" (by decide),
   (c5_status_decode_total (fun _ => none)).2.2.2.1 "$20" (by decide),
   (c5_status_decode_total (fun _ => none)).2.2.2.2 "Closed" (by decide) (by decide)⟩

/-- C6: each tick admits at most 50 jobs, all satisfying the candidate
predicate (active scans, due, not in flight, under the error threshold);
the admitted order is by priority descending with earlier next_poll_at first
among equal priorities, and the stable in-memory re-sort by priority leaves
that order unchanged. -/
theorem c6_scheduler_order (rows : List PollingJob) (cfg : ScanExecutorConfig)
    (now : Int) :
    process_polling_jobs_order (get_jobs_needing_poll rows cfg now) =
      get_jobs_needing_poll rows cfg now ∧
    (get_jobs_needing_poll rows cfg now).length ≤ 50 ∧
    (∀ j ∈ get_jobs_needing_poll rows cfg now,
      job_needs_poll cfg.max_consecutive_errors now j = true) ∧
    List.Sorted jobOrder (get_jobs_needing_poll rows cfg now) := by
  have hfs : List.Sorted jobOrder (get_jobs_needing_poll rows cfg now) := by
    unfold get_jobs_needing_poll
    exact List.Pairwise.sublist (List.take_sublist _ _)
      (List.sorted_insertionSort jobOrder _)
  have hps : List.Sorted priorityOrder (get_jobs_needing_poll rows cfg now) :=
    List.Pairwise.imp
      (fun h => by unfold jobOrder at h; unfold priorityOrder; omega) hfs
  refine ⟨hps.insertionSort_eq, ?_, ?_, hfs⟩
  · unfold get_jobs_needing_poll
    exact List.length_take_le _ _
  · intro j hj
    unfold get_jobs_needing_poll at hj
    have hj2 := (List.take_sublist _ _).subset hj
    have hj3 := (List.mem_insertionSort jobOrder).1 hj2
    exact List.of_mem_filter hj3

/-- C8: after a successful poll the job row has consecutive_errors = 0,
next_poll_at = now + poll_frequency_minutes, and is_being_polled = false,
so the error counter is zero on the tick following any successful poll. -/
theorem c8_success_update (now : Int) (job : PollingJob) :
    (update_job_success now job).consecutive_errors = 0 ∧
    (update_job_success now job).next_poll_at
      = now + 60 * job.poll_frequency_minutes ∧
    (update_job_success now job).is_being_polled = false :=
  ⟨rfl, rfl, rfl⟩

/-- Writing the same snapshot twice leaves the cache unchanged. -/
lemma update_cache_idem (cache : AvailCache) (a : CampgroundAvailability) :
    update_availability_cache (update_availability_cache cache a) a
      = update_availability_cache cache a := by
  funext cg d
  by_cases h : (cg == a.campground_id &&
      !(a.available_sites.filter fun s => s.date == d).isEmpty) = true
  · simp [update_availability_cache, h]
  · simp [update_availability_cache, h]

/-- After writing the snapshot, every available site of the snapshot fails the
is_new test against the cache read back over a window containing its date. -/
lemma replay_is_not_new (cache : AvailCache) (a : CampgroundAvailability)
    (s e : NDate)
    (hrange : ∀ site ∈ a.available_sites, (s.ble site.date && site.date.ble e) = true) :
    ∀ site ∈ a.available_sites, site.available = true →
      is_new_site
        (get_cached_availability (update_availability_cache cache a) a.campground_id s e)
        site = false := by
  intro site hmem havail
  have hbmem : site ∈ a.available_sites.filter (fun x => x.date == site.date) :=
    List.mem_filter.mpr ⟨hmem, by simp⟩
  have hbne :
      (a.available_sites.filter (fun x => x.date == site.date)).isEmpty = false := by
    cases hb : a.available_sites.filter (fun x => x.date == site.date) with
    | nil => rw [hb] at hbmem; exact absurd hbmem (List.not_mem_nil site)
    | cons y ys => rfl
  have hlook :
      get_cached_availability (update_availability_cache cache a) a.campground_id s e
          site.date
        = some (a.available_sites.filter (fun x => x.date == site.date)) := by
    simp [get_cached_availability, hrange site hmem, update_availability_cache, hbne]
  rw [is_new_site, hlook]
  simp only [Bool.not_eq_false']
  exact List.any_eq_true.mpr ⟨site, hbmem, by simp [havail]⟩

/-- C3: once the cache holds the snapshot grouped by date (as the cache
write produces it), the diff of the read-back map against that same
snapshot is empty, and re-running the worker's post-fetch step on the
identical snapshot rewrites the cache idempotently and produces zero
notifications. -/
theorem c3_replay_diff_empty
    (sendFn : UserScan → CampgroundAvailability → List NotificationRecord × Except String Unit)
    (now : Int) (scans : List UserScan) (cache : AvailCache)
    (a : CampgroundAvailability) (s e : NDate)
    (hrange : ∀ site ∈ a.available_sites, (s.ble site.date && site.date.ble e) = true) :
    find_new_availability
        (get_cached_availability (update_availability_cache cache a) a.campground_id s e)
        a = [] ∧
    poll_campground_step sendFn now scans (update_availability_cache cache a) s e a
      = (update_availability_cache cache a, [], scans) := by
  have hdiff :
      find_new_availability
        (get_cached_availability (update_availability_cache cache a) a.campground_id s e)
        a = [] :=
    find_go_nil _ _ (replay_is_not_new cache a s e hrange)
  refine ⟨hdiff, ?_⟩
  simp [poll_campground_step, hdiff, update_cache_idem]

/-- C3 witness: a one-site snapshot written to an empty cache and replayed. -/
theorem c3_replay_diff_empty_witness :
    find_new_availability
        (get_cached_availability
          (update_availability_cache (fun _ _ => none)
            ⟨"G1", [⟨"S1", "S1", true, ⟨2025, 6, 11⟩, none⟩], 1, 0⟩)
          "G1" ⟨2025, 6, 10⟩ ⟨2025, 6, 12⟩)
        ⟨"G1", [⟨"S1", "S1", true, ⟨2025, 6, 11⟩, none⟩], 1, 0⟩ = [] ∧
    poll_campground_step (fun _ _ => ([], Except.ok ())) 0 []
        (update_availability_cache (fun _ _ => none)
          ⟨"G1", [⟨"S1", "S1", true, ⟨2025, 6, 11⟩, none⟩], 1, 0⟩)
        ⟨2025, 6, 10⟩ ⟨2025, 6, 12⟩
        ⟨"G1", [⟨"S1", "S1", true, ⟨2025, 6, 11⟩, none⟩], 1, 0⟩
      = (update_availability_cache (fun _ _ => none)
          ⟨"G1", [⟨"S1", "S1", true, ⟨2025, 6, 11⟩, none⟩], 1, 0⟩, [], []) :=
  c3_replay_diff_empty _ 0 [] _ _ _ _ (by decide)

/-- C7: after a failed poll the job's consecutive_errors is the previous
value plus one; next_poll_at is pushed by error_backoff_duration when the
new count reaches max_consecutive_errors and by poll_frequency_minutes
otherwise; the in-flight flag is released; an error row carrying the
message is upserted at today's date; and the notifications log is
untouched. -/
theorem c7_error_update (cfg : ScanExecutorConfig) (now : Int) (today : NDate)
    (msg : String) (st : WorkerState) :
    (update_job_error cfg now today msg st).job.consecutive_errors
        = st.job.consecutive_errors + 1 ∧
    (update_job_error cfg now today msg st).job.next_poll_at
        = (if st.job.consecutive_errors + 1 ≥ cfg.max_consecutive_errors then
            now + cfg.error_backoff_duration
          else
            now + 60 * st.job.poll_frequency_minutes) ∧
    (update_job_error cfg now today msg st).job.is_being_polled = false ∧
    (∃ row,
      (update_job_error cfg now today msg st).cache st.job.campground_id today
          = some row ∧
      row.check_status = "error" ∧ row.error_message = some msg ∧
      row.last_checked = now) ∧
    (update_job_error cfg now today msg st).notifications = st.notifications := by
  refine ⟨rfl, rfl, rfl, ?_, rfl⟩
  cases hc : st.cache st.job.campground_id today with
  | none =>
    refine ⟨⟨none, none, none, now, "error", some msg⟩, ?_, rfl, rfl, rfl⟩
    simp [update_job_error, hc]
  | some row =>
    refine ⟨⟨row.available_sites, row.total_sites, row.availability_data,
      now, "error", some msg⟩, ?_, rfl, rfl, rfl⟩
    simp [update_job_error, hc]

/-- C9: a scan whose half-open window [check_in_date, check_out_date)
contains no new site is skipped, and when every newly available site is
outside every scan's window the worker step still writes the snapshot to
the availability cache yet emits zero notification records and leaves every
scan's latch unchanged. -/
theorem c9_window_filter :
    (∀ sendFn now new_sites (scan : UserScan),
      new_sites.filter (site_in_scan_window scan) = [] →
      notify_scan_step sendFn now new_sites scan = ([], scan)) ∧
    (∀ sendFn now scans (cache : AvailCache) s e
        (a : CampgroundAvailability),
      (∀ scan ∈ scans, ∀ site ∈ a.available_sites,
        site_in_scan_window scan site = false) →
      poll_campground_step sendFn now scans cache s e a
        = (update_availability_cache cache a, [], scans)) := by
  have hskip : ∀ sendFn now new_sites (scan : UserScan),
      new_sites.filter (site_in_scan_window scan) = [] →
      notify_scan_step sendFn now new_sites scan = ([], scan) := by
    intro sendFn now new_sites scan hf
    simp [notify_scan_step, hf]
  refine ⟨hskip, ?_⟩
  intro sendFn now scans cache s e a hout
  have hsub :
      (find_new_availability
        (get_cached_availability cache a.campground_id s e) a).Sublist
        a.available_sites := by
    rw [find_new_availability, find_go_eq_filter]
    exact List.filter_sublist _
  have hsend : ∀ scans2, (∀ scan ∈ scans2, ∀ site ∈ a.available_sites,
      site_in_scan_window scan site = false) →
      send_notifications_for_new_availability sendFn now scans2
        (find_new_availability
          (get_cached_availability cache a.campground_id s e) a)
        = ([], scans2) := by
    intro scans2 hout2
    induction scans2 with
    | nil => rfl
    | cons sc rest ih =>
      have hf :
          (find_new_availability
            (get_cached_availability cache a.campground_id s e) a).filter
              (site_in_scan_window sc) = [] := by
        rw [List.filter_eq_nil_iff]
        intro site hsite
        simp [hout2 sc (List.mem_cons_self sc rest) site (hsub.subset hsite)]
      have hrest := ih (fun x hx => hout2 x (List.mem_cons_of_mem sc hx))
      simp [send_notifications_for_new_availability, hskip _ _ _ _ hf, hrest]
  by_cases hempty :
      (find_new_availability
        (get_cached_availability cache a.campground_id s e) a).isEmpty = true
  · simp [poll_campground_step, hempty]
  · simp [poll_campground_step, hempty, hsend scans hout]

/-- C9 witness: one available site on 2025-06-20 against a scan window
2025-06-10 to 2025-06-12. -/
theorem c9_window_filter_witness :
    poll_campground_step (fun _ _ => ([], Except.ok ())) 0
        [⟨1, 7, "G1", ⟨2025, 6, 10⟩, ⟨2025, 6, 12⟩, 2, "active", false⟩]
        (fun _ _ => none) ⟨2025, 6, 10⟩ ⟨2025, 6, 20⟩
        ⟨"G1", [⟨"S1", "S1", true, ⟨2025, 6, 20⟩, none⟩], 1, 0⟩
      = (update_availability_cache (fun _ _ => none)
          ⟨"G1", [⟨"S1", "S1", true, ⟨2025, 6, 20⟩, none⟩], 1, 0⟩, [],
         [⟨1, 7, "G1", ⟨2025, 6, 10⟩, ⟨2025, 6, 12⟩, 2, "active", false⟩]) :=
  c9_window_filter.2 _ 0 _ _ _ _ _ (by decide)

/-- Membership in a fold that concatenates per-element lists. -/
lemma mem_foldr_append {α β : Type _} (g : α → List β) (L : List α) (s : β) :
    s ∈ L.foldr (fun p acc => g p ++ acc) [] ↔ ∃ p ∈ L, s ∈ g p := by
  induction L with
  | nil => simp
  | cons a t ih =>
    simp only [List.foldr_cons, List.mem_append, ih, List.mem_cons]
    constructor
    · rintro (hs | ⟨p, hp, hs⟩)
      · exact ⟨a, Or.inl rfl, hs⟩
      · exact ⟨p, Or.inr hp, hs⟩
    · rintro ⟨p, hp | hp, hs⟩
      · subst hp; exact Or.inl hs
      · exact Or.inr ⟨p, hp, hs⟩

/-- Date totality: when x is not below y, y is at most x. -/
lemma ndate_ble_of_blt_false {x y : NDate} (h : x.blt y = false) :
    y.ble x = true := by
  simp only [NDate.blt, NDate.ble, Bool.or_eq_false_iff, Bool.or_eq_true,
    Bool.and_eq_true, Bool.and_eq_false_iff, decide_eq_true_eq,
    decide_eq_false_iff_not, beq_iff_eq, beq_eq_false_iff_ne, ne_eq,
    not_lt] at h ⊢
  omega

/-- A date that fails the out-of-range test of parse_availability_data lies
inside the requested window. -/
lemma ndate_in_range {a s e : NDate} (h : (a.blt s || e.blt a) = false) :
    (s.ble a && a.ble e) = true := by
  rw [Bool.or_eq_false_iff] at h
  rw [Bool.and_eq_true]
  exact ⟨ndate_ble_of_blt_false h.1, ndate_ble_of_blt_false h.2⟩

/-- The fixture serves each month's availability only at that month's anchor. -/
lemma upstream_ex_monthly : monthly_endpoint upstream_ex := by
  intro anchor p hp q hq
  unfold upstream_ex at hp
  by_cases h1 : anchor = (⟨2025, 6, 1⟩ : NDate)
  · subst h1
    rw [if_pos rfl] at hp
    simp only [List.mem_singleton] at hp
    subst hp
    simp only [List.mem_singleton] at hq
    subst hq
    exact ⟨rfl, rfl⟩
  · rw [if_neg h1] at hp
    by_cases h2 : anchor = (⟨2025, 7, 1⟩ : NDate)
    · subst h2
      rw [if_pos rfl] at hp
      simp only [List.mem_singleton] at hp
      subst hp
      simp only [List.mem_singleton] at hq
      subst hq
      exact ⟨rfl, rfl⟩
    · rw [if_neg h2] at hp
      exact absurd hp (List.not_mem_nil p)

/-- C4 counterexample: the upstream has campsite S1 available on 2025-07-01,
a date inside the requested window 2025-06-30 .. 2025-07-01, but the fetch
anchored at 2025-06-01 returns a snapshot whose only date is 2025-06-30:
the second month of the straddling window is not covered. -/
theorem c4_counterexample :
    ((upstream_ex ⟨2025, 7, 1⟩).any fun p =>
        p.2.availabilities.any fun q => q.1 == (⟨2025, 7, 1⟩ : NDate)) = true ∧
    ((get_internal_campground_availability upstream_ex (fun _ => none) "G1"
        ⟨2025, 6, 30⟩ ⟨2025, 7, 1⟩ 0).available_sites.map fun s => s.date)
      = [⟨2025, 6, 30⟩] := by
  decide

/-- C4 (amended): the client issues exactly one request, anchored at the
first day of the month containing the window's start; when the monthly
endpoint serves only the anchored month, every site in the returned
snapshot has a date inside [from, to] that lies in the start month — dates
of the window falling in a later month are missed. -/
theorem c4_month_anchor
    (upstream : NDate → List (String × CampsiteAvailabilityData))
    (pf : String → Option Rat) (facility_id : String)
    (start_date end_date : NDate) (now : Int)
    (hmonthly : monthly_endpoint upstream) :
    ∀ s ∈ (get_internal_campground_availability upstream pf facility_id
            start_date end_date now).available_sites,
      (start_date.ble s.date && s.date.ble end_date) = true ∧
      s.date.year = start_date.year ∧ s.date.month = start_date.month := by
  intro s hs
  rw [get_internal_campground_availability] at hs
  simp only [] at hs
  rw [mem_foldr_append] at hs
  obtain ⟨p, hpL, hsp⟩ := hs
  rw [parse_availability_data] at hsp
  obtain ⟨q, hqmem, hq⟩ := List.mem_filterMap.mp hsp
  by_cases hc : (q.1.blt start_date || end_date.blt q.1) = true
  · rw [if_pos hc] at hq
    exact absurd hq (by simp)
  · have hcf : (q.1.blt start_date || end_date.blt q.1) = false := by
      cases hcv : (q.1.blt start_date || end_date.blt q.1)
      · rfl
      · exact absurd hcv hc
    rw [if_neg hc] at hq
    have hdate : s.date = q.1 := by
      cases hq
      rfl
    have hmon := hmonthly (month_start start_date) p hpL q hqmem
    rw [hdate]
    exact ⟨ndate_in_range hcf, hmon.1, hmon.2⟩

/-- C4 witness: a window contained in one month, against the fixture. -/
theorem c4_month_anchor_witness :
    ((⟨2025, 6, 30⟩ : NDate).ble
        (⟨"S1", "S1", true, ⟨2025, 6, 30⟩, none⟩ : SiteAvailability).date &&
      (⟨"S1", "S1", true, ⟨2025, 6, 30⟩, none⟩ : SiteAvailability).date.ble
        ⟨2025, 6, 30⟩) = true ∧
    (⟨"S1", "S1", true, ⟨2025, 6, 30⟩, none⟩ : SiteAvailability).date.year
      = (⟨2025, 6, 30⟩ : NDate).year ∧
    (⟨"S1", "S1", true, ⟨2025, 6, 30⟩, none⟩ : SiteAvailability).date.month
      = (⟨2025, 6, 30⟩ : NDate).month :=
  c4_month_anchor upstream_ex (fun _ => none) "G1" ⟨2025, 6, 30⟩ ⟨2025, 6, 30⟩ 0
    upstream_ex_monthly ⟨"S1", "S1", true, ⟨2025, 6, 30⟩, none⟩ (by decide)

/-- C1 counterexample: user with both preferences on and both contacts
verified, both transports configured, email send succeeds, SMS send fails.
The notifications written are one sent email row and one failed sms row as
the claim says, but the scan comes out of the executor step with
notification_sent still false — the scan is not marked notified. -/
theorem c1_counterexample :
    ((send_notifications_for_new_availability
        (fun _ avail => send_availability_notification
          ⟨some (fun _ _ _ => Except.ok "ext-email-1"),
           some (fun _ _ => Except.error "sms transport down"),
           fun _ => ("subject", "body"), fun _ => "sms body"⟩
          ⟨"u@example.com", "U", some "+15550100", true, true, ⟨true, true⟩⟩
          avail)
        0
        [⟨1, 7, "G1", ⟨2025, 6, 10⟩, ⟨2025, 6, 12⟩, 2, "active", false⟩]
        [⟨"S1", "S1", true, ⟨2025, 6, 11⟩, none⟩]).1.map
          fun r => (r.notification_type, r.status))
      = [("email", "sent"), ("sms", "failed")] ∧
    (send_notifications_for_new_availability
        (fun _ avail => send_availability_notification
          ⟨some (fun _ _ _ => Except.ok "ext-email-1"),
           some (fun _ _ => Except.error "sms transport down"),
           fun _ => ("subject", "body"), fun _ => "sms body"⟩
          ⟨"u@example.com", "U", some "+15550100", true, true, ⟨true, true⟩⟩
          avail)
        0
        [⟨1, 7, "G1", ⟨2025, 6, 10⟩, ⟨2025, 6, 12⟩, 2, "active", false⟩]
        [⟨"S1", "S1", true, ⟨2025, 6, 11⟩, none⟩]).2
      = [⟨1, 7, "G1", ⟨2025, 6, 10⟩, ⟨2025, 6, 12⟩, 2, "active", false⟩] ∧
    (⟨1, 7, "G1", ⟨2025, 6, 10⟩, ⟨2025, 6, 12⟩, 2, "active", false⟩ :
        UserScan).notification_sent = false := by
  refine ⟨?_, ?_, rfl⟩ <;> rfl

/-- C1 (amended): with both transports eligible, email succeeding and SMS
failing, one sent email row and one failed sms row are recorded, but the
per-scan send returns the SMS error, so the executor does not set the
scan's notification_sent latch: the scan is marked notified only when the
whole per-scan send returns Ok. -/
theorem c1_partial_failure
    (ctx : NotifierCtx) (user : UserDetails) (scan : UserScan) (now : Int)
    (new_sites : List SiteAvailability)
    (es : String → String → String → Except String String)
    (ss : String → String → Except String String)
    (phone eid err : String)
    (hpe : user.preferences.email = true) (hev : user.email_verified = true)
    (hes : ctx.email_service = some es)
    (hps : user.preferences.sms = true) (hpv : user.phone_verified = true)
    (hph : user.phone = some phone)
    (hss : ctx.sms_service = some ss)
    (hrel : new_sites.filter (site_in_scan_window scan) ≠ [])
    (hlatch : scan.notification_sent = false)
    (hok : es user.email
        (ctx.content (scan_availability scan now
          (new_sites.filter (site_in_scan_window scan)))).1
        (ctx.content (scan_availability scan now
          (new_sites.filter (site_in_scan_window scan)))).2
        = Except.ok eid)
    (herr : ss phone
        (ctx.sms_content (scan_availability scan now
          (new_sites.filter (site_in_scan_window scan))))
        = Except.error err) :
    send_availability_notification ctx user
        (scan_availability scan now (new_sites.filter (site_in_scan_window scan)))
      = ([⟨"email", user.email,
            some (ctx.content (scan_availability scan now
              (new_sites.filter (site_in_scan_window scan)))).1,
            (ctx.content (scan_availability scan now
              (new_sites.filter (site_in_scan_window scan)))).2,
            "sent", some eid⟩,
          ⟨"sms", phone, none,
            ctx.sms_content (scan_availability scan now
              (new_sites.filter (site_in_scan_window scan))),
            "failed", none⟩],
         Except.error err) ∧
    send_notifications_for_new_availability
        (fun _ avail => send_availability_notification ctx user avail)
        now [scan] new_sites
      = ([⟨"email", user.email,
            some (ctx.content (scan_availability scan now
              (new_sites.filter (site_in_scan_window scan)))).1,
            (ctx.content (scan_availability scan now
              (new_sites.filter (site_in_scan_window scan)))).2,
            "sent", some eid⟩,
          ⟨"sms", phone, none,
            ctx.sms_content (scan_availability scan now
              (new_sites.filter (site_in_scan_window scan))),
            "failed", none⟩],
         [scan]) := by
  have hne : (new_sites.filter (site_in_scan_window scan)).isEmpty = false := by
    cases hcase : new_sites.filter (site_in_scan_window scan) with
    | nil => exact absurd hcase hrel
    | cons y ys => rfl
  have hsend :
      send_availability_notification ctx user
          (scan_availability scan now (new_sites.filter (site_in_scan_window scan)))
        = ([⟨"email", user.email,
              some (ctx.content (scan_availability scan now
                (new_sites.filter (site_in_scan_window scan)))).1,
              (ctx.content (scan_availability scan now
                (new_sites.filter (site_in_scan_window scan)))).2,
              "sent", some eid⟩,
            ⟨"sms", phone, none,
              ctx.sms_content (scan_availability scan now
                (new_sites.filter (site_in_scan_window scan))),
              "failed", none⟩],
           Except.error err) := by
    rw [send_availability_notification]
    simp only [hpe, hev, hes, hps, hpv, hph, hss, Option.isSome_some,
      Bool.and_self, Bool.and_true, Bool.true_and, if_true, ite_true]
    rw [hok, herr]
    rfl
  refine ⟨hsend, ?_⟩
  rw [send_notifications_for_new_availability,
    send_notifications_for_new_availability, notify_scan_step]
  simp only [hne, Bool.false_eq_true, if_false, hlatch, hsend,
    List.append_nil]

/-- C1 witness: concrete user, transports and scan exercising the partial
transport failure. -/
theorem c1_partial_failure_witness :
    send_availability_notification
        ⟨some (fun _ _ _ => Except.ok "E7"),
         some (fun _ _ => Except.error "sms gateway 500"),
         fun _ => ("s7", "b7"), fun _ => "m7"⟩
        ⟨"w@example.com", "W", some "+15550177", true, true, ⟨true, true⟩⟩
        (scan_availability
          ⟨2, 9, "G2", ⟨2025, 8, 1⟩, ⟨2025, 8, 3⟩, 2, "active", false⟩ 5
          ([(⟨"S2", "S2", true, ⟨2025, 8, 2⟩, none⟩ : SiteAvailability)].filter
            (site_in_scan_window
              ⟨2, 9, "G2", ⟨2025, 8, 1⟩, ⟨2025, 8, 3⟩, 2, "active", false⟩)))
      = ([⟨"email", "w@example.com", some "s7", "b7", "sent", some "E7"⟩,
          ⟨"sms", "+15550177", none, "m7", "failed", none⟩],
         Except.error "sms gateway 500") ∧
    send_notifications_for_new_availability
        (fun _ avail => send_availability_notification
          ⟨some (fun _ _ _ => Except.ok "E7"),
           some (fun _ _ => Except.error "sms gateway 500"),
           fun _ => ("s7", "b7"), fun _ => "m7"⟩
          ⟨"w@example.com", "W", some "+15550177", true, true, ⟨true, true⟩⟩
          avail)
        5 [⟨2, 9, "G2", ⟨2025, 8, 1⟩, ⟨2025, 8, 3⟩, 2, "active", false⟩]
        [⟨"S2", "S2", true, ⟨2025, 8, 2⟩, none⟩]
      = ([⟨"email", "w@example.com", some "s7", "b7", "sent", some "E7"⟩,
          ⟨"sms", "+15550177", none, "m7", "failed", none⟩],
         [⟨2, 9, "G2", ⟨2025, 8, 1⟩, ⟨2025, 8, 3⟩, 2, "active", false⟩]) :=
  c1_partial_failure _ _ _ 5 _ _ _ "+15550177" "E7" "sms gateway 500"
    rfl rfl rfl rfl rfl rfl rfl (by decide) rfl rfl rfl

/-- C10: when neither transport is attempted — a preference off, an
unverified contact, a missing phone, or an unconfigured service on each
channel — send_availability_notification writes no notification row and
returns success, and the executor step then sets the scan's
notification_sent latch to true even though nothing was dispatched. -/
theorem c10_vacuous_success
    (ctx : NotifierCtx) (user : UserDetails) (scan : UserScan) (now : Int)
    (new_sites : List SiteAvailability)
    (hemail : user.preferences.email = false ∨ user.email_verified = false ∨
      ctx.email_service = none)
    (hsms : user.preferences.sms = false ∨ user.phone_verified = false ∨
      user.phone = none ∨ ctx.sms_service = none)
    (hlatch : scan.notification_sent = false)
    (hrel : new_sites.filter (site_in_scan_window scan) ≠ []) :
    (∀ avail, send_availability_notification ctx user avail
      = ([], Except.ok ())) ∧
    send_notifications_for_new_availability
        (fun _ avail => send_availability_notification ctx user avail)
        now [scan] new_sites
      = ([], [{ scan with notification_sent := true }]) := by
  have hge : (user.preferences.email && user.email_verified &&
      ctx.email_service.isSome) = false := by
    rcases hemail with h | h | h <;> simp [h]
  have hgs : (user.preferences.sms && user.phone_verified &&
      user.phone.isSome && ctx.sms_service.isSome) = false := by
    rcases hsms with h | h | h | h <;> simp [h]
  have hne : (new_sites.filter (site_in_scan_window scan)).isEmpty = false := by
    cases hcase : new_sites.filter (site_in_scan_window scan) with
    | nil => exact absurd hcase hrel
    | cons y ys => rfl
  have hsend : ∀ avail, send_availability_notification ctx user avail
      = ([], Except.ok ()) := by
    intro avail
    rw [send_availability_notification]
    simp only [hge, hgs, Bool.false_eq_true, if_false, ite_false]
  refine ⟨hsend, ?_⟩
  rw [send_notifications_for_new_availability,
    send_notifications_for_new_availability, notify_scan_step]
  simp only [hne, Bool.false_eq_true, if_false, hlatch, hsend,
    List.append_nil]

/-- C10 witness: both preferences off, no transports configured, one new
site inside the scan's window. -/
theorem c10_vacuous_success_witness :
    (∀ avail, send_availability_notification
        ⟨none, none, fun _ => ("s", "b"), fun _ => "m"⟩
        ⟨"q@example.com", "Q", none, false, false, ⟨false, false⟩⟩ avail
      = ([], Except.ok ())) ∧
    send_notifications_for_new_availability
        (fun _ avail => send_availability_notification
          ⟨none, none, fun _ => ("s", "b"), fun _ => "m"⟩
          ⟨"q@example.com", "Q", none, false, false, ⟨false, false⟩⟩ avail)
        3 [⟨4, 11, "G3", ⟨2025, 9, 1⟩, ⟨2025, 9, 4⟩, 3, "active", false⟩]
        [⟨"S3", "S3", true, ⟨2025, 9, 2⟩, none⟩]
      = ([], [{ (⟨4, 11, "G3", ⟨2025, 9, 1⟩, ⟨2025, 9, 4⟩, 3, "active",
            false⟩ : UserScan) with notification_sent := true }]) :=
  c10_vacuous_success _ _ _ 3 _ (by simp) (by simp) rfl (by decide)

end CampsiteTracker
